import Mathlib

/-!
Shallow embedding of `src/app2.py` (ControlGovAPIV2): a FastAPI REST facade
over a single MongoDB collection of "empenho" (budgetary commitment) records.

Modelling conventions:
* JSON / BSON values carried by the items field are the inductive `JsonV`.
* A Mongo `_id` value is `BsonId`: either a genuine ObjectId (kept as its
  24-hex-character string form) or a plain BSON string.  BSON equality never
  identifies an ObjectId with a string, which `DecidableEq BsonId` mirrors.
* The collection is a list of stored documents in natural (insertion) order;
  `find_one` returns the first match, `insert_one` appends, and the store
  assigns a fresh ObjectId to the inserted document.
* Each route handler becomes a pure function from the store (plus request
  data) to the new store and an `ApiResponse`.  An exception that the handler
  does not catch (e.g. `bson.ObjectId` rejecting a malformed id string) is
  `ApiResponse.serverError`; a pydantic request-body validation failure is
  `ApiResponse.validationError` (FastAPI's 422); an explicit `HTTPException`
  is `ApiResponse.errorDetail`.
-/

/-- A JSON value, as far as this API needs one (the nested items table and
request bodies). -/
inductive JsonV where
  | null : JsonV
  | str (s : String) : JsonV
  | arr (l : List JsonV) : JsonV
  | obj (l : List (String × JsonV)) : JsonV

/-- A BSON `_id` value: a real ObjectId (its 24-hex string) or a plain
string.  The two are never equal as BSON values. -/
inductive BsonId where
  | oid (hex : String) : BsonId
  | str (s : String) : BsonId
deriving DecidableEq, Repr

/-- The external (string) representation of an `_id`, as produced by the
`PyObjectId = Annotated[str, BeforeValidator(str)]` conversion. -/
def BsonId.toStr : BsonId → String
  | .oid h => h
  | .str s => s

/-- Is `c` a hexadecimal digit? -/
def isHexChar (c : Char) : Bool :=
  c.isDigit || ('a' ≤ c && c ≤ 'f') || ('A' ≤ c && c ≤ 'F')

/-- Can `s` be parsed by `bson.ObjectId`: exactly 24 hex characters. -/
def isValidObjectIdHex (s : String) : Bool :=
  s.length == 24 && s.toList.all isHexChar

/-- `ObjectId(s)`: either the ObjectId whose hex form is `s`, or a raised
`InvalidId` exception (`none`). -/
def parseObjectId (s : String) : Option String :=
  if isValidObjectIdHex s then some s else none

/-- The twenty-one data fields of `EmpenhoModel` (everything except `id`), in
declaration order.  Lean field names stand one-to-one for the storage field
names, which equal the display aliases of `app2.py` (`Elemento_de_Despesa`
stores "Elemento de Despesa", `Itens` stores "Item(ns)", and so on). -/
structure EmpenhoFields where
  «Número» : String
  Data : String
  Credor : String
  «Alteração» : String
  Empenhado : String
  Liquidado : String
  Pago : String
  Atualizado : String
  link_Detalhes : String
  Poder : String
  «Função» : String
  Elemento_de_Despesa : String
  Unid_Administradora : String
  «Subfunção» : String
  Subelemento : String
  «Unid_Orçamentária» : String
  Fonte_de_recurso : String
  Projeto_Atividade : String
  Categorias_de_base_legal : String
  «Histórico» : String
  Itens : List JsonV

/-- `EmpenhoModel`: the optional `id` (a `PyObjectId`, i.e. a string) plus
the twenty-one required data fields. -/
structure EmpenhoModel where
  id : Option String
  fields : EmpenhoFields

/-- `UpdateEmpenhoModel`: every data field optional, no `id` field at all. -/
structure UpdateEmpenhoModel where
  «Número» : Option String := none
  Data : Option String := none
  Credor : Option String := none
  «Alteração» : Option String := none
  Empenhado : Option String := none
  Liquidado : Option String := none
  Pago : Option String := none
  Atualizado : Option String := none
  link_Detalhes : Option String := none
  Poder : Option String := none
  «Função» : Option String := none
  Elemento_de_Despesa : Option String := none
  Unid_Administradora : Option String := none
  «Subfunção» : Option String := none
  Subelemento : Option String := none
  «Unid_Orçamentária» : Option String := none
  Fonte_de_recurso : Option String := none
  Projeto_Atividade : Option String := none
  Categorias_de_base_legal : Option String := none
  «Histórico» : Option String := none
  Itens : Option (List JsonV) := none

/-- `EmpenhoCollection`: the named container wrapping the list result. -/
structure EmpenhoCollection where
  empenhos : List EmpenhoModel

/-- A document stored in the Mongo collection: its BSON `_id` plus the data
fields (stored under the display names; `StoredDoc` has no client `id`). -/
structure StoredDoc where
  _id : BsonId
  fields : EmpenhoFields

/-- The collection, in natural (insertion) order. -/
abbrev Store := List StoredDoc

/-- `find_one({"_id": q})`: first document whose `_id` equals `q` as a BSON
value. -/
def findDoc : Store → BsonId → Option StoredDoc
  | [], _ => none
  | d :: ds, q => if d._id = q then some d else findDoc ds q

/-- `find_one_and_update({"_id": q}, {"$set": ...}, ReturnDocument.AFTER)`:
apply `f` to the first document matching `q`; return the new store and the
post-update document (or `none` if no match, store unchanged). -/
def findOneAndUpdateAfter : Store → BsonId → (StoredDoc → StoredDoc) → Store × Option StoredDoc
  | [], _, _ => ([], none)
  | d :: ds, q, f =>
    if d._id = q then (f d :: ds, some (f d))
    else
      let r := findOneAndUpdateAfter ds q f
      (d :: r.1, r.2)

/-- `delete_one({"_id": q})`: remove the first document matching `q`; return
the new store and `deleted_count`. -/
def deleteOne : Store → BsonId → Store × Nat
  | [], _ => ([], 0)
  | d :: ds, q =>
    if d._id = q then (ds, 1)
    else
      let r := deleteOne ds q
      (d :: r.1, r.2)

/-- Validating a stored document against `EmpenhoModel` for the response:
the BSON `_id` becomes the string `id` via `BeforeValidator(str)`. -/
def docToModel (d : StoredDoc) : EmpenhoModel :=
  { id := some d._id.toStr, fields := d.fields }

/-- What an HTTP route evaluation produces. -/
inductive ApiResponse where
  | record (code : Nat) (e : EmpenhoModel) : ApiResponse
  | collection (code : Nat) (c : EmpenhoCollection) : ApiResponse
  | empty (code : Nat) : ApiResponse
  | errorDetail (code : Nat) (detail : String) : ApiResponse
  | validationError : ApiResponse
  | serverError : ApiResponse

/-- `model_dump` of an `EmpenhoModel`, in field declaration order.  With
`byAlias = true` the keys are the aliases (`_id`, the display spellings);
with `byAlias = false` they are the Python field names (`id`, underscored
spellings) — the spelling FastAPI uses on responses, since every route sets
`response_model_by_alias=False`. -/
def dumpEmpenhoModel (byAlias : Bool) (e : EmpenhoModel) : List (String × JsonV) :=
  [ (if byAlias then "_id" else "id",
      match e.id with | none => JsonV.null | some s => JsonV.str s),
    ("Número", JsonV.str e.fields.«Número»),
    ("Data", JsonV.str e.fields.Data),
    ("Credor", JsonV.str e.fields.Credor),
    ("Alteração", JsonV.str e.fields.«Alteração»),
    ("Empenhado", JsonV.str e.fields.Empenhado),
    ("Liquidado", JsonV.str e.fields.Liquidado),
    ("Pago", JsonV.str e.fields.Pago),
    ("Atualizado", JsonV.str e.fields.Atualizado),
    ("link_Detalhes", JsonV.str e.fields.link_Detalhes),
    ("Poder", JsonV.str e.fields.Poder),
    ("Função", JsonV.str e.fields.«Função»),
    (if byAlias then "Elemento de Despesa" else "Elemento_de_Despesa",
      JsonV.str e.fields.Elemento_de_Despesa),
    (if byAlias then "Unid. Administradora" else "Unid_Administradora",
      JsonV.str e.fields.Unid_Administradora),
    ("Subfunção", JsonV.str e.fields.«Subfunção»),
    ("Subelemento", JsonV.str e.fields.Subelemento),
    (if byAlias then "Unid. Orçamentária" else "Unid_Orçamentária",
      JsonV.str e.fields.«Unid_Orçamentária»),
    (if byAlias then "Fonte de recurso" else "Fonte_de_recurso",
      JsonV.str e.fields.Fonte_de_recurso),
    (if byAlias then "Projeto/Atividade" else "Projeto_Atividade",
      JsonV.str e.fields.Projeto_Atividade),
    (if byAlias then "Categorias de base legal" else "Categorias_de_base_legal",
      JsonV.str e.fields.Categorias_de_base_legal),
    ("Histórico", JsonV.str e.fields.«Histórico»),
    (if byAlias then "Item(ns)" else "Itens", JsonV.arr e.fields.Itens) ]

/-- The encoded HTTP response body for a single record: `model_dump` with
`by_alias = False` (all five routes set `response_model_by_alias=False`). -/
def encodeEmpenho (e : EmpenhoModel) : JsonV :=
  JsonV.obj (dumpEmpenhoModel false e)

/-- The encoded HTTP response body for the list route: a named container
object with the single key `empenhos`, never a bare top-level array. -/
def encodeCollection (c : EmpenhoCollection) : JsonV :=
  JsonV.obj [("empenhos", JsonV.arr (c.empenhos.map encodeEmpenho))]

/-- Pydantic field lookup in a request-body JSON object with
`populate_by_name = True`: the alias wins, else the Python field name. -/
def lookupField (body : List (String × JsonV)) (aliasName fieldName : String) : Option JsonV :=
  match body.lookup aliasName with
  | some v => some v
  | none => body.lookup fieldName

/-- Validate one required `str` field of `EmpenhoModel`: present and a JSON
string. -/
def getStrField (body : List (String × JsonV)) (aliasName fieldName : String) : Option String :=
  match lookupField body aliasName fieldName with
  | some (JsonV.str s) => some s
  | _ => none

/-- Validate the required `Item(ns)` field: present and a JSON array. -/
def getItensField (body : List (String × JsonV)) : Option (List JsonV) :=
  match lookupField body "Item(ns)" "Itens" with
  | some (JsonV.arr l) => some l
  | _ => none

/-- The optional `id` field (alias `_id`), a string when supplied. -/
def getIdField (body : List (String × JsonV)) : Option String :=
  match lookupField body "_id" "id" with
  | some (JsonV.str s) => some s
  | _ => none

/-- Do all twenty-one required fields of `EmpenhoModel` validate? -/
def allFieldsOk (body : List (String × JsonV)) : Bool :=
  (getStrField body "Número" "Número").isSome &&
  (getStrField body "Data" "Data").isSome &&
  (getStrField body "Credor" "Credor").isSome &&
  (getStrField body "Alteração" "Alteração").isSome &&
  (getStrField body "Empenhado" "Empenhado").isSome &&
  (getStrField body "Liquidado" "Liquidado").isSome &&
  (getStrField body "Pago" "Pago").isSome &&
  (getStrField body "Atualizado" "Atualizado").isSome &&
  (getStrField body "link_Detalhes" "link_Detalhes").isSome &&
  (getStrField body "Poder" "Poder").isSome &&
  (getStrField body "Função" "Função").isSome &&
  (getStrField body "Elemento de Despesa" "Elemento_de_Despesa").isSome &&
  (getStrField body "Unid. Administradora" "Unid_Administradora").isSome &&
  (getStrField body "Subfunção" "Subfunção").isSome &&
  (getStrField body "Subelemento" "Subelemento").isSome &&
  (getStrField body "Unid. Orçamentária" "Unid_Orçamentária").isSome &&
  (getStrField body "Fonte de recurso" "Fonte_de_recurso").isSome &&
  (getStrField body "Projeto/Atividade" "Projeto_Atividade").isSome &&
  (getStrField body "Categorias de base legal" "Categorias_de_base_legal").isSome &&
  (getStrField body "Histórico" "Histórico").isSome &&
  (getItensField body).isSome

/-- FastAPI decoding of a create request body into `EmpenhoModel`: succeeds
iff every required field is present and well-shaped (pydantic collects the
errors otherwise and FastAPI answers 422 before the handler runs). -/
def parseEmpenhoBody (body : List (String × JsonV)) : Option EmpenhoModel :=
  if allFieldsOk body then
    some
      { id := getIdField body,
        fields :=
          { «Número» := (getStrField body "Número" "Número").getD ""
            Data := (getStrField body "Data" "Data").getD ""
            Credor := (getStrField body "Credor" "Credor").getD ""
            «Alteração» := (getStrField body "Alteração" "Alteração").getD ""
            Empenhado := (getStrField body "Empenhado" "Empenhado").getD ""
            Liquidado := (getStrField body "Liquidado" "Liquidado").getD ""
            Pago := (getStrField body "Pago" "Pago").getD ""
            Atualizado := (getStrField body "Atualizado" "Atualizado").getD ""
            link_Detalhes := (getStrField body "link_Detalhes" "link_Detalhes").getD ""
            Poder := (getStrField body "Poder" "Poder").getD ""
            «Função» := (getStrField body "Função" "Função").getD ""
            Elemento_de_Despesa := (getStrField body "Elemento de Despesa" "Elemento_de_Despesa").getD ""
            Unid_Administradora := (getStrField body "Unid. Administradora" "Unid_Administradora").getD ""
            «Subfunção» := (getStrField body "Subfunção" "Subfunção").getD ""
            Subelemento := (getStrField body "Subelemento" "Subelemento").getD ""
            «Unid_Orçamentária» := (getStrField body "Unid. Orçamentária" "Unid_Orçamentária").getD ""
            Fonte_de_recurso := (getStrField body "Fonte de recurso" "Fonte_de_recurso").getD ""
            Projeto_Atividade := (getStrField body "Projeto/Atividade" "Projeto_Atividade").getD ""
            Categorias_de_base_legal := (getStrField body "Categorias de base legal" "Categorias_de_base_legal").getD ""
            «Histórico» := (getStrField body "Histórico" "Histórico").getD ""
            Itens := (getItensField body).getD [] } }
  else none

/-- Is the `$set` dictionary of the update handler empty, i.e. does
`{k: v for k, v in empenho.model_dump(by_alias=True).items() if v is not None}`
have length 0? -/
def UpdateEmpenhoModel.isEmpty (u : UpdateEmpenhoModel) : Bool :=
  u.«Número».isNone && u.Data.isNone && u.Credor.isNone && u.«Alteração».isNone &&
  u.Empenhado.isNone && u.Liquidado.isNone && u.Pago.isNone && u.Atualizado.isNone &&
  u.link_Detalhes.isNone && u.Poder.isNone && u.«Função».isNone &&
  u.Elemento_de_Despesa.isNone && u.Unid_Administradora.isNone &&
  u.«Subfunção».isNone && u.Subelemento.isNone && u.«Unid_Orçamentária».isNone &&
  u.Fonte_de_recurso.isNone && u.Projeto_Atividade.isNone &&
  u.Categorias_de_base_legal.isNone && u.«Histórico».isNone && u.Itens.isNone

/-- `$set` of the non-`None` fields (keyed by their display names, which are
exactly the storage names) onto a stored document's fields. -/
def applyUpdate (f : EmpenhoFields) (u : UpdateEmpenhoModel) : EmpenhoFields :=
  { «Número» := u.«Número».getD f.«Número»
    Data := u.Data.getD f.Data
    Credor := u.Credor.getD f.Credor
    «Alteração» := u.«Alteração».getD f.«Alteração»
    Empenhado := u.Empenhado.getD f.Empenhado
    Liquidado := u.Liquidado.getD f.Liquidado
    Pago := u.Pago.getD f.Pago
    Atualizado := u.Atualizado.getD f.Atualizado
    link_Detalhes := u.link_Detalhes.getD f.link_Detalhes
    Poder := u.Poder.getD f.Poder
    «Função» := u.«Função».getD f.«Função»
    Elemento_de_Despesa := u.Elemento_de_Despesa.getD f.Elemento_de_Despesa
    Unid_Administradora := u.Unid_Administradora.getD f.Unid_Administradora
    «Subfunção» := u.«Subfunção».getD f.«Subfunção»
    Subelemento := u.Subelemento.getD f.Subelemento
    «Unid_Orçamentária» := u.«Unid_Orçamentária».getD f.«Unid_Orçamentária»
    Fonte_de_recurso := u.Fonte_de_recurso.getD f.Fonte_de_recurso
    Projeto_Atividade := u.Projeto_Atividade.getD f.Projeto_Atividade
    Categorias_de_base_legal := u.Categorias_de_base_legal.getD f.Categorias_de_base_legal
    «Histórico» := u.«Histórico».getD f.«Histórico»
    Itens := u.Itens.getD f.Itens }

/-- The `$set` step applied to a whole stored document (`_id` untouched). -/
def applyDoc (u : UpdateEmpenhoModel) (d : StoredDoc) : StoredDoc :=
  { _id := d._id, fields := applyUpdate d.fields u }

/-- `POST /empenhos/` (`create_empenho`): decode the body (422 on failure,
before any store call); `insert_one` of `model_dump(by_alias=True,
exclude=["id"])`, the store assigning the fresh ObjectId `freshOid`; then
`find_one` of the inserted id, answered 201. -/
def create_empenho (st : Store) (freshOid : String) (body : List (String × JsonV)) :
    Store × ApiResponse :=
  match parseEmpenhoBody body with
  | none => (st, ApiResponse.validationError)
  | some e =>
    let st' := st ++ [{ _id := BsonId.oid freshOid, fields := e.fields }]
    match findDoc st' (BsonId.oid freshOid) with
    | some d => (st', ApiResponse.record 201 (docToModel d))
    | none => (st', ApiResponse.serverError)

/-- `GET /empenhos/` (`list_empenhos`): `find().to_list(1000)`, wrapped in
`EmpenhoCollection`. -/
def list_empenhos (st : Store) : EmpenhoCollection :=
  { empenhos := (st.take 1000).map docToModel }

/-- The HTTP evaluation of `GET /empenhos/`: the route declares no
`status_code`, so FastAPI answers its default success status 200 with the
handler's collection (this route can fail in no other way). -/
def list_empenhos_route (st : Store) : ApiResponse :=
  ApiResponse.collection 200 (list_empenhos st)

/-- `GET /empenhos/{id}` (`show_empenho`): `ObjectId(id)` (unhandled
`InvalidId` if malformed), `find_one`, 200 with the record or 404
"Empenho {id} not found". -/
def show_empenho (st : Store) (id : String) : ApiResponse :=
  match parseObjectId id with
  | none => ApiResponse.serverError
  | some h =>
    match findDoc st (BsonId.oid h) with
    | some d => ApiResponse.record 200 (docToModel d)
    | none => ApiResponse.errorDetail 404 ("Empenho " ++ id ++ " not found")

/-- `PUT /empenhos/{id}` (`update_empenho`): keep the non-`None` fields; if
at least one remains, `ObjectId(id)` (unhandled `InvalidId` if malformed)
then atomic `find_one_and_update` with `ReturnDocument.AFTER`, 200 with the
post-update record or 404; if none remain, a plain `find_one({"_id": id})`
with the RAW STRING `id`, 200 with the unmodified record or 404. -/
def update_empenho (st : Store) (id : String) (u : UpdateEmpenhoModel) :
    Store × ApiResponse :=
  if u.isEmpty then
    match findDoc st (BsonId.str id) with
    | some d => (st, ApiResponse.record 200 (docToModel d))
    | none => (st, ApiResponse.errorDetail 404 ("Empenho " ++ id ++ " not found"))
  else
    match parseObjectId id with
    | none => (st, ApiResponse.serverError)
    | some h =>
      let r := findOneAndUpdateAfter st (BsonId.oid h) (applyDoc u)
      match r.2 with
      | some d => (r.1, ApiResponse.record 200 (docToModel d))
      | none => (st, ApiResponse.errorDetail 404 ("Empenho " ++ id ++ " not found"))

/-- `DELETE /empenhos/{id}` (`delete_empenho`): `ObjectId(id)` (unhandled
`InvalidId` if malformed), `delete_one`, 204 empty if `deleted_count == 1`,
else 404 "empenho {id} not found". -/
def delete_empenho (st : Store) (id : String) : Store × ApiResponse :=
  match parseObjectId id with
  | none => (st, ApiResponse.serverError)
  | some h =>
    let r := deleteOne st (BsonId.oid h)
    if r.2 = 1 then (r.1, ApiResponse.empty 204)
    else (r.1, ApiResponse.errorDetail 404 ("empenho " ++ id ++ " not found"))

/-- A small concrete items table (header row then data rows). -/
def sampleItens : List JsonV :=
  [JsonV.arr [JsonV.str "Descrição", JsonV.str "Tipo"],
   JsonV.arr [JsonV.arr [JsonV.str "DIÁRIA", JsonV.str "DRA"]]]

/-- A concrete, fully populated field record. -/
def sampleFields : EmpenhoFields :=
  { «Número» := "8230001", Data := "23/08/2024", Credor := "credor",
    «Alteração» := "R$ 0,00", Empenhado := "R$ 300,00", Liquidado := "R$ 300,00",
    Pago := "R$ 300,00", Atualizado := "23/08/2024", link_Detalhes := "link",
    Poder := "1 - LEGISLATIVO", «Função» := "01 - LEGISLATIVA",
    Elemento_de_Despesa := "elem", Unid_Administradora := "unadm",
    «Subfunção» := "subf", Subelemento := "sube", «Unid_Orçamentária» := "unorc",
    Fonte_de_recurso := "fonte", Projeto_Atividade := "proj",
    Categorias_de_base_legal := "cat", «Histórico» := "hist", Itens := sampleItens }

/-- The concrete create request body matching `sampleFields`, keyed by the
display (alias) spellings. -/
def sampleBody : List (String × JsonV) :=
  [("Número", JsonV.str "8230001"), ("Data", JsonV.str "23/08/2024"),
   ("Credor", JsonV.str "credor"), ("Alteração", JsonV.str "R$ 0,00"),
   ("Empenhado", JsonV.str "R$ 300,00"), ("Liquidado", JsonV.str "R$ 300,00"),
   ("Pago", JsonV.str "R$ 300,00"), ("Atualizado", JsonV.str "23/08/2024"),
   ("link_Detalhes", JsonV.str "link"), ("Poder", JsonV.str "1 - LEGISLATIVO"),
   ("Função", JsonV.str "01 - LEGISLATIVA"),
   ("Elemento de Despesa", JsonV.str "elem"),
   ("Unid. Administradora", JsonV.str "unadm"),
   ("Subfunção", JsonV.str "subf"), ("Subelemento", JsonV.str "sube"),
   ("Unid. Orçamentária", JsonV.str "unorc"),
   ("Fonte de recurso", JsonV.str "fonte"),
   ("Projeto/Atividade", JsonV.str "proj"),
   ("Categorias de base legal", JsonV.str "cat"),
   ("Histórico", JsonV.str "hist"), ("Item(ns)", JsonV.arr sampleItens)]

/-- The model `sampleBody` decodes to (no `id` supplied). -/
def sampleModel : EmpenhoModel := { id := none, fields := sampleFields }

/-- A concrete valid ObjectId hex string. -/
def oid0 : String := "0123456789abcdef01234567"

/-- A concrete stored document whose `_id` is the ObjectId `oid0`. -/
def doc0 : StoredDoc := { _id := BsonId.oid oid0, fields := sampleFields }

/-- The update body supplying no fields at all. -/
def emptyUpd : UpdateEmpenhoModel := {}

/-- The update body supplying only the `Número` field. -/
def upd1 : UpdateEmpenhoModel := { «Número» := some "999" }

theorem findOneAndUpdateAfter_snd (q : BsonId) (f : StoredDoc → StoredDoc) :
    ∀ st : Store, (findOneAndUpdateAfter st q f).2 = (findDoc st q).map f := by
  intro st
  induction st with
  | nil => rfl
  | cons d ds ih =>
    simp only [findOneAndUpdateAfter, findDoc]
    split
    · rfl
    · simpa using ih

theorem findOneAndUpdateAfter_fst_ids (q : BsonId) (f : StoredDoc → StoredDoc)
    (hf : ∀ d, (f d)._id = d._id) :
    ∀ st : Store, ((findOneAndUpdateAfter st q f).1).map StoredDoc._id
      = st.map StoredDoc._id := by
  intro st
  induction st with
  | nil => rfl
  | cons d ds ih =>
    simp only [findOneAndUpdateAfter]
    split
    · simp [List.map_cons, hf]
    · simpa using ih

theorem findOneAndUpdateAfter_found (q : BsonId) (f : StoredDoc → StoredDoc)
    (hf : ∀ d, (f d)._id = d._id) :
    ∀ (st : Store) (d : StoredDoc), findDoc st q = some d →
      findDoc (findOneAndUpdateAfter st q f).1 q = some (f d) := by
  intro st
  induction st with
  | nil => intro d h; simp [findDoc] at h
  | cons e es ih =>
    intro d h
    simp only [findDoc] at h
    simp only [findOneAndUpdateAfter]
    by_cases he : e._id = q
    · rw [if_pos he] at h ⊢
      simp only [findDoc, hf, he, if_pos]
      simpa using congrArg (Option.map f) h
    · rw [if_neg he] at h
      simp only [if_neg he, findDoc]
      exact ih d h

theorem findDoc_append_of_none (q : BsonId) (d : StoredDoc) :
    ∀ st : Store, findDoc st q = none →
      findDoc (st ++ [d]) q = if d._id = q then some d else none := by
  intro st
  induction st with
  | nil => intro _; rfl
  | cons e es ih =>
    intro h
    simp only [findDoc] at h
    by_cases he : e._id = q
    · rw [if_pos he] at h; exact absurd h (by simp)
    · rw [if_neg he] at h
      simp only [List.cons_append, findDoc, if_neg he]
      exact ih h

theorem deleteOne_of_none (q : BsonId) :
    ∀ st : Store, findDoc st q = none → deleteOne st q = (st, 0) := by
  intro st
  induction st with
  | nil => intro _; rfl
  | cons e es ih =>
    intro h
    simp only [findDoc] at h
    by_cases he : e._id = q
    · rw [if_pos he] at h; exact absurd h (by simp)
    · rw [if_neg he] at h
      simp only [deleteOne, if_neg he, ih h]

/-- Claim C1 (evaluation of the failing input): with the record `doc0` —
whose `_id` is the ObjectId `oid0` — stored, updating `oid0` with an empty
body answers 404 "not found" instead of returning the record: the fallback
executes `find_one({"_id": id})` with the raw string `id`, and a BSON string
never equals an ObjectId, so the lookup misses the existing record. -/
theorem c1_empty_update_misses_existing_record :
    (∃ d, d ∈ ([doc0] : Store) ∧ d._id = BsonId.oid oid0 ∧ d._id.toStr = oid0) ∧
    emptyUpd.isEmpty = true ∧
    update_empenho [doc0] oid0 emptyUpd
      = ([doc0], ApiResponse.errorDetail 404 ("Empenho " ++ oid0 ++ " not found")) :=
  ⟨⟨doc0, by simp, rfl, rfl⟩, rfl, rfl⟩

/-- Claim C2 counterexample: the create request body `sampleBody`, written
with the display spellings, is accepted, but the encoded response for the
resulting record does not use the display spelling "Elemento de Despesa" —
it uses the Python field name "Elemento_de_Despesa", because every route
sets `response_model_by_alias=False`. -/
theorem c2_response_spelling_counterexample :
    parseEmpenhoBody sampleBody = some sampleModel ∧
    encodeEmpenho sampleModel = JsonV.obj (dumpEmpenhoModel false sampleModel) ∧
    (dumpEmpenhoModel false sampleModel).lookup "Elemento de Despesa" = none ∧
    (dumpEmpenhoModel false sampleModel).lookup "Elemento_de_Despesa"
      = some (JsonV.str "elem") ∧
    (dumpEmpenhoModel true sampleModel).lookup "Elemento de Despesa"
      = some (JsonV.str "elem") :=
  ⟨rfl, rfl, rfl, rfl, rfl⟩

/-- Claim C2 as amended: responses are encoded with the Python field-name
spelling (`id`, underscored names, `Itens`), while the alias pass-through —
the display spellings, identical to the storage names — applies to request
decoding (`by_alias = true` dumps); so for the renamed fields the response
spelling differs from the display spelling accepted on request bodies. -/
theorem c2_amended_response_uses_field_names (e : EmpenhoModel) :
    (dumpEmpenhoModel false e).map Prod.fst
      = ["id", "Número", "Data", "Credor", "Alteração", "Empenhado", "Liquidado",
         "Pago", "Atualizado", "link_Detalhes", "Poder", "Função",
         "Elemento_de_Despesa", "Unid_Administradora", "Subfunção", "Subelemento",
         "Unid_Orçamentária", "Fonte_de_recurso", "Projeto_Atividade",
         "Categorias_de_base_legal", "Histórico", "Itens"] ∧
    (dumpEmpenhoModel true e).map Prod.fst
      = ["_id", "Número", "Data", "Credor", "Alteração", "Empenhado", "Liquidado",
         "Pago", "Atualizado", "link_Detalhes", "Poder", "Função",
         "Elemento de Despesa", "Unid. Administradora", "Subfunção", "Subelemento",
         "Unid. Orçamentária", "Fonte de recurso", "Projeto/Atividade",
         "Categorias de base legal", "Histórico", "Item(ns)"] ∧
    encodeEmpenho e = JsonV.obj (dumpEmpenhoModel false e) :=
  ⟨rfl, rfl, rfl⟩

/-- Claim C5: a syntactically valid ObjectId string with no matching stored
record gives 404 on read, on update with a non-empty body, and on delete,
each with a message containing the requested identifier. -/
theorem c5_unknown_valid_id_gives_404 (st : Store) (id : String)
    (u : UpdateEmpenhoModel)
    (hid : isValidObjectIdHex id = true)
    (habs : findDoc st (BsonId.oid id) = none)
    (hu : u.isEmpty = false) :
    show_empenho st id
      = ApiResponse.errorDetail 404 ("Empenho " ++ id ++ " not found") ∧
    update_empenho st id u
      = (st, ApiResponse.errorDetail 404 ("Empenho " ++ id ++ " not found")) ∧
    delete_empenho st id
      = (st, ApiResponse.errorDetail 404 ("empenho " ++ id ++ " not found")) ∧
    (∃ a b, "Empenho " ++ id ++ " not found" = a ++ id ++ b) ∧
    (∃ a b, "empenho " ++ id ++ " not found" = a ++ id ++ b) := by
  refine ⟨?_, ?_, ?_, ⟨"Empenho ", " not found", rfl⟩, ⟨"empenho ", " not found", rfl⟩⟩
  · simp [show_empenho, parseObjectId, hid, habs]
  · simp [update_empenho, hu, parseObjectId, hid, findOneAndUpdateAfter_snd, habs]
  · simp [delete_empenho, parseObjectId, hid, deleteOne_of_none _ st habs]

/-- Claim C5 witness: reading, updating (non-empty body) and deleting the
absent valid identifier "000000000000000000000000" each answer 404 with the
identifier in the message. -/
theorem c5_unknown_valid_id_gives_404_witness :
    isValidObjectIdHex "000000000000000000000000" = true ∧
    upd1.isEmpty = false ∧
    show_empenho [] "000000000000000000000000"
      = ApiResponse.errorDetail 404 "Empenho 000000000000000000000000 not found" ∧
    update_empenho [] "000000000000000000000000" upd1
      = ([], ApiResponse.errorDetail 404 "Empenho 000000000000000000000000 not found") ∧
    delete_empenho [] "000000000000000000000000"
      = ([], ApiResponse.errorDetail 404 "empenho 000000000000000000000000 not found") := by
  have h := c5_unknown_valid_id_gives_404 [] "000000000000000000000000" upd1
    (by decide) rfl rfl
  exact ⟨by decide, rfl, h.1, h.2.1, h.2.2.1⟩

/-- Claim C8: an identifier string that `ObjectId` cannot parse makes read,
update (non-empty body) and delete fail with the unhandled server error, not
a handled 4xx response. -/
theorem c8_malformed_id_server_error (st : Store) (id : String)
    (u : UpdateEmpenhoModel)
    (hid : parseObjectId id = none) (hu : u.isEmpty = false) :
    show_empenho st id = ApiResponse.serverError ∧
    update_empenho st id u = (st, ApiResponse.serverError) ∧
    delete_empenho st id = (st, ApiResponse.serverError) := by
  refine ⟨?_, ?_, ?_⟩
  · simp [show_empenho, hid]
  · simp [update_empenho, hu, hid]
  · simp [delete_empenho, hid]

/-- Claim C8 witness: the unparseable identifier "not-a-hex-id" propagates
as a server error on all three identifier-taking operations. -/
theorem c8_malformed_id_server_error_witness :
    parseObjectId "not-a-hex-id" = none ∧
    upd1.isEmpty = false ∧
    show_empenho [doc0] "not-a-hex-id" = ApiResponse.serverError ∧
    update_empenho [doc0] "not-a-hex-id" upd1 = ([doc0], ApiResponse.serverError) ∧
    delete_empenho [doc0] "not-a-hex-id" = ([doc0], ApiResponse.serverError) := by
  have h := c8_malformed_id_server_error [doc0] "not-a-hex-id" upd1 (by decide) rfl
  exact ⟨by decide, rfl, h.1, h.2.1, h.2.2⟩

/-- Claim C10: an update whose body supplies no non-null fields never parses
the identifier: it runs `find_one({"_id": id})` with the raw string, leaves
the store unchanged, and answers 200 (raw-string match) or 404 — never the
malformed-identifier server error, whatever the identifier string is. -/
theorem c10_empty_update_raw_string_lookup (st : Store) (id : String)
    (u : UpdateEmpenhoModel) (hu : u.isEmpty = true) :
    update_empenho st id u
      = (st, match findDoc st (BsonId.str id) with
             | some d => ApiResponse.record 200 (docToModel d)
             | none => ApiResponse.errorDetail 404 ("Empenho " ++ id ++ " not found")) ∧
    (update_empenho st id u).1 = st ∧
    (update_empenho st id u).2 ≠ ApiResponse.serverError := by
  refine ⟨?_, ?_, ?_⟩ <;>
    rcases hfd : findDoc st (BsonId.str id) with _ | d <;>
      simp [update_empenho, hu, hfd]

/-- Claim C10 witness: with the unparseable identifier "not-an-objectid"
and an empty body, the update answers 404 (not a server error) and leaves
the store unchanged. -/
theorem c10_empty_update_raw_string_lookup_witness :
    emptyUpd.isEmpty = true ∧
    update_empenho [doc0] "not-an-objectid" emptyUpd
      = ([doc0], ApiResponse.errorDetail 404 ("Empenho " ++ "not-an-objectid" ++ " not found")) ∧
    (update_empenho [doc0] "not-an-objectid" emptyUpd).2 ≠ ApiResponse.serverError := by
  have h := c10_empty_update_raw_string_lookup [doc0] "not-an-objectid" emptyUpd rfl
  exact ⟨rfl, h.1, h.2.2⟩

/-- Claim C3: creating a record whose body decodes to `e`, with the store
assigning the fresh valid ObjectId `freshOid`, answers 201 with the created
record (its `id` newly set to `freshOid`), and reading `freshOid` afterwards
answers 200 with exactly the same record. -/
theorem c3_create_then_read (st : Store) (freshOid : String)
    (body : List (String × JsonV)) (e : EmpenhoModel)
    (hv : isValidObjectIdHex freshOid = true)
    (hfresh : findDoc st (BsonId.oid freshOid) = none)
    (hp : parseEmpenhoBody body = some e) :
    create_empenho st freshOid body
      = (st ++ [{ _id := BsonId.oid freshOid, fields := e.fields }],
         ApiResponse.record 201 { id := some freshOid, fields := e.fields }) ∧
    show_empenho (st ++ [{ _id := BsonId.oid freshOid, fields := e.fields }]) freshOid
      = ApiResponse.record 200 { id := some freshOid, fields := e.fields } := by
  have hap := findDoc_append_of_none (BsonId.oid freshOid)
    { _id := BsonId.oid freshOid, fields := e.fields } st hfresh
  rw [if_pos rfl] at hap
  have hpo : parseObjectId freshOid = some freshOid := by
    simp [parseObjectId, hv]
  constructor
  · unfold create_empenho
    rw [hp]
    simp only [hap, docToModel, BsonId.toStr]
  · unfold show_empenho
    rw [hpo]
    simp only [hap, docToModel, BsonId.toStr]

/-- Claim C3 witness: creating `sampleBody` into the empty store under the
fresh ObjectId `oid0` and then reading `oid0` returns the same record with
`id = oid0` both times. -/
theorem c3_create_then_read_witness :
    create_empenho [] oid0 sampleBody
      = ([{ _id := BsonId.oid oid0, fields := sampleFields }],
         ApiResponse.record 201 { id := some oid0, fields := sampleFields }) ∧
    show_empenho [{ _id := BsonId.oid oid0, fields := sampleFields }] oid0
      = ApiResponse.record 200 { id := some oid0, fields := sampleFields } :=
  c3_create_then_read [] oid0 sampleBody sampleModel (by decide) rfl rfl

/-- Claim C4: updating a stored record `d` (found under the valid ObjectId
`id`) with a non-empty field subset answers 200 with the post-update record,
whose every data field is the supplied value when one was supplied and the
prior stored value otherwise, with `_id` unchanged; the store afterwards
holds that record under `id` and no document's `_id` changed. -/
theorem c4_update_partial_frame (st : Store) (id : String)
    (u : UpdateEmpenhoModel) (d : StoredDoc)
    (hv : isValidObjectIdHex id = true)
    (hu : u.isEmpty = false)
    (hd : findDoc st (BsonId.oid id) = some d) :
    ∃ st',
      update_empenho st id u
        = (st', ApiResponse.record 200 (docToModel (applyDoc u d))) ∧
      findDoc st' (BsonId.oid id) = some (applyDoc u d) ∧
      st'.map StoredDoc._id = st.map StoredDoc._id ∧
      (applyDoc u d)._id = d._id ∧
      applyUpdate d.fields u =
        { «Número» := u.«Número».getD d.fields.«Número»
          Data := u.Data.getD d.fields.Data
          Credor := u.Credor.getD d.fields.Credor
          «Alteração» := u.«Alteração».getD d.fields.«Alteração»
          Empenhado := u.Empenhado.getD d.fields.Empenhado
          Liquidado := u.Liquidado.getD d.fields.Liquidado
          Pago := u.Pago.getD d.fields.Pago
          Atualizado := u.Atualizado.getD d.fields.Atualizado
          link_Detalhes := u.link_Detalhes.getD d.fields.link_Detalhes
          Poder := u.Poder.getD d.fields.Poder
          «Função» := u.«Função».getD d.fields.«Função»
          Elemento_de_Despesa := u.Elemento_de_Despesa.getD d.fields.Elemento_de_Despesa
          Unid_Administradora := u.Unid_Administradora.getD d.fields.Unid_Administradora
          «Subfunção» := u.«Subfunção».getD d.fields.«Subfunção»
          Subelemento := u.Subelemento.getD d.fields.Subelemento
          «Unid_Orçamentária» := u.«Unid_Orçamentária».getD d.fields.«Unid_Orçamentária»
          Fonte_de_recurso := u.Fonte_de_recurso.getD d.fields.Fonte_de_recurso
          Projeto_Atividade := u.Projeto_Atividade.getD d.fields.Projeto_Atividade
          Categorias_de_base_legal := u.Categorias_de_base_legal.getD d.fields.Categorias_de_base_legal
          «Histórico» := u.«Histórico».getD d.fields.«Histórico»
          Itens := u.Itens.getD d.fields.Itens } := by
  refine ⟨(findOneAndUpdateAfter st (BsonId.oid id) (applyDoc u)).1, ?_, ?_, ?_, rfl, rfl⟩
  · have hsnd := findOneAndUpdateAfter_snd (BsonId.oid id) (applyDoc u) st
    rw [hd] at hsnd
    simp [update_empenho, hu, parseObjectId, hv, hsnd]
  · exact findOneAndUpdateAfter_found (BsonId.oid id) (applyDoc u) (fun _ => rfl) st d hd
  · exact findOneAndUpdateAfter_fst_ids (BsonId.oid id) (applyDoc u) (fun _ => rfl) st

/-- Claim C4 witness: updating `doc0` (stored under `oid0`) with a body
supplying only `Número := "999"` answers 200 with a record whose `Número` is
"999" and whose other fields equal `doc0`'s prior values. -/
theorem c4_update_partial_frame_witness :
    (∃ st',
      update_empenho [doc0] oid0 upd1
        = (st', ApiResponse.record 200 (docToModel (applyDoc upd1 doc0))) ∧
      findDoc st' (BsonId.oid oid0) = some (applyDoc upd1 doc0) ∧
      st'.map StoredDoc._id = ([doc0] : Store).map StoredDoc._id ∧
      (applyDoc upd1 doc0)._id = doc0._id ∧
      applyUpdate doc0.fields upd1 =
        { «Número» := upd1.«Número».getD doc0.fields.«Número»
          Data := upd1.Data.getD doc0.fields.Data
          Credor := upd1.Credor.getD doc0.fields.Credor
          «Alteração» := upd1.«Alteração».getD doc0.fields.«Alteração»
          Empenhado := upd1.Empenhado.getD doc0.fields.Empenhado
          Liquidado := upd1.Liquidado.getD doc0.fields.Liquidado
          Pago := upd1.Pago.getD doc0.fields.Pago
          Atualizado := upd1.Atualizado.getD doc0.fields.Atualizado
          link_Detalhes := upd1.link_Detalhes.getD doc0.fields.link_Detalhes
          Poder := upd1.Poder.getD doc0.fields.Poder
          «Função» := upd1.«Função».getD doc0.fields.«Função»
          Elemento_de_Despesa := upd1.Elemento_de_Despesa.getD doc0.fields.Elemento_de_Despesa
          Unid_Administradora := upd1.Unid_Administradora.getD doc0.fields.Unid_Administradora
          «Subfunção» := upd1.«Subfunção».getD doc0.fields.«Subfunção»
          Subelemento := upd1.Subelemento.getD doc0.fields.Subelemento
          «Unid_Orçamentária» := upd1.«Unid_Orçamentária».getD doc0.fields.«Unid_Orçamentária»
          Fonte_de_recurso := upd1.Fonte_de_recurso.getD doc0.fields.Fonte_de_recurso
          Projeto_Atividade := upd1.Projeto_Atividade.getD doc0.fields.Projeto_Atividade
          Categorias_de_base_legal := upd1.Categorias_de_base_legal.getD doc0.fields.Categorias_de_base_legal
          «Histórico» := upd1.«Histórico».getD doc0.fields.«Histórico»
          Itens := upd1.Itens.getD doc0.fields.Itens }) ∧
    (applyUpdate doc0.fields upd1).«Número» = "999" ∧
    (applyUpdate doc0.fields upd1).Credor = "credor" :=
  ⟨c4_update_partial_frame [doc0] oid0 upd1 doc0 (by decide) rfl rfl, rfl, rfl⟩

/-- Claim C6: the list operation answers HTTP 200 with the stored records
capped at 1000 (exactly 1000 of them once 1001 or more are stored), wrapped
in the named container keyed "empenhos" rather than a bare top-level
array. -/
theorem c6_list_capped_and_wrapped (st : Store) :
    list_empenhos_route st
      = ApiResponse.collection 200 { empenhos := (st.take 1000).map docToModel } ∧
    list_empenhos st = { empenhos := (st.take 1000).map docToModel } ∧
    (list_empenhos st).empenhos.length = min 1000 st.length ∧
    (1001 ≤ st.length → (list_empenhos st).empenhos.length = 1000) ∧
    encodeCollection (list_empenhos st)
      = JsonV.obj [("empenhos",
          JsonV.arr (((st.take 1000).map docToModel).map encodeEmpenho))] := by
  refine ⟨rfl, rfl, ?_, ?_, rfl⟩
  · simp [list_empenhos]
  · intro h
    simp [list_empenhos]
    omega

/-- Claim C6 witness: with 1001 records stored, the list route answers 200
with a collection holding exactly 1000 records. -/
theorem c6_list_capped_and_wrapped_witness :
    1001 ≤ (List.replicate 1001 doc0 : Store).length ∧
    (list_empenhos (List.replicate 1001 doc0)).empenhos.length = 1000 ∧
    list_empenhos_route (List.replicate 1001 doc0)
      = ApiResponse.collection 200 (list_empenhos (List.replicate 1001 doc0)) :=
  ⟨le_of_eq (List.length_replicate 1001 doc0).symm,
   (c6_list_capped_and_wrapped (List.replicate 1001 doc0)).2.2.2.1
     (le_of_eq (List.length_replicate 1001 doc0).symm),
   rfl⟩

/-- Claim C7: if any declared non-identifier field of a create body is
missing or of the wrong shape, the operation answers the validation error
with the store untouched (no insertion); if the body decodes, the operation
performs exactly one insertion (append of one document under the fresh
store-assigned ObjectId) and answers 201 with the created record, id
included. -/
theorem c7_create_validates_before_store (st : Store) (freshOid : String)
    (body : List (String × JsonV)) :
    ((getStrField body "Número" "Número" = none ∨
      getStrField body "Data" "Data" = none ∨
      getStrField body "Credor" "Credor" = none ∨
      getStrField body "Alteração" "Alteração" = none ∨
      getStrField body "Empenhado" "Empenhado" = none ∨
      getStrField body "Liquidado" "Liquidado" = none ∨
      getStrField body "Pago" "Pago" = none ∨
      getStrField body "Atualizado" "Atualizado" = none ∨
      getStrField body "link_Detalhes" "link_Detalhes" = none ∨
      getStrField body "Poder" "Poder" = none ∨
      getStrField body "Função" "Função" = none ∨
      getStrField body "Elemento de Despesa" "Elemento_de_Despesa" = none ∨
      getStrField body "Unid. Administradora" "Unid_Administradora" = none ∨
      getStrField body "Subfunção" "Subfunção" = none ∨
      getStrField body "Subelemento" "Subelemento" = none ∨
      getStrField body "Unid. Orçamentária" "Unid_Orçamentária" = none ∨
      getStrField body "Fonte de recurso" "Fonte_de_recurso" = none ∨
      getStrField body "Projeto/Atividade" "Projeto_Atividade" = none ∨
      getStrField body "Categorias de base legal" "Categorias_de_base_legal" = none ∨
      getStrField body "Histórico" "Histórico" = none ∨
      getItensField body = none) →
      create_empenho st freshOid body = (st, ApiResponse.validationError)) ∧
    (∀ e : EmpenhoModel, parseEmpenhoBody body = some e →
      findDoc st (BsonId.oid freshOid) = none →
      create_empenho st freshOid body
        = (st ++ [{ _id := BsonId.oid freshOid, fields := e.fields }],
           ApiResponse.record 201 { id := some freshOid, fields := e.fields })) := by
  constructor
  · intro h
    have hok : allFieldsOk body = false := by
      rcases h with h|h|h|h|h|h|h|h|h|h|h|h|h|h|h|h|h|h|h|h|h <;>
        simp [allFieldsOk, h]
    have hp : parseEmpenhoBody body = none := by
      unfold parseEmpenhoBody
      rw [hok]
      rfl
    unfold create_empenho
    rw [hp]
  · intro e hp hfresh
    have hap := findDoc_append_of_none (BsonId.oid freshOid)
      { _id := BsonId.oid freshOid, fields := e.fields } st hfresh
    rw [if_pos rfl] at hap
    unfold create_empenho
    rw [hp]
    simp only [hap, docToModel, BsonId.toStr]

/-- Claim C7 witness: the empty body fails validation (every required field
missing) and leaves the store empty, while `sampleBody` decodes and is
inserted exactly once, answered 201 with the assigned identifier. -/
theorem c7_create_validates_before_store_witness :
    create_empenho [] oid0 [] = ([], ApiResponse.validationError) ∧
    create_empenho [] oid0 sampleBody
      = ([{ _id := BsonId.oid oid0, fields := sampleFields }],
         ApiResponse.record 201 { id := some oid0, fields := sampleFields }) :=
  ⟨(c7_create_validates_before_store [] oid0 []).1 (Or.inl rfl),
   (c7_create_validates_before_store [] oid0 sampleBody).2 sampleModel rfl rfl⟩

/-- Claim C9: a client-supplied identifier is never written: the document a
create inserts carries the store-assigned ObjectId and only the data fields
(two bodies decoding to the same data fields produce identical outcomes,
whatever identifier either supplied); the update body has no identifier
field, and no update ever changes any stored document's `_id`; a stored
`_id` is emitted as its plain string form. -/
theorem c9_identifier_immutable_store_assigned (st : Store) (freshOid : String)
    (body : List (String × JsonV)) (e : EmpenhoModel)
    (hp : parseEmpenhoBody body = some e) :
    (create_empenho st freshOid body).1
      = st ++ [{ _id := BsonId.oid freshOid, fields := e.fields }] ∧
    (∀ (body' : List (String × JsonV)) (e' : EmpenhoModel),
      parseEmpenhoBody body' = some e' → e'.fields = e.fields →
      create_empenho st freshOid body' = create_empenho st freshOid body) ∧
    (∀ (id : String) (u : UpdateEmpenhoModel),
      ((update_empenho st id u).1).map StoredDoc._id = st.map StoredDoc._id) ∧
    (∀ d : StoredDoc, (docToModel d).id = some d._id.toStr) := by
  refine ⟨?_, ?_, ?_, fun d => rfl⟩
  · unfold create_empenho
    rw [hp]
    rcases hfd : findDoc (st ++ [{ _id := BsonId.oid freshOid, fields := e.fields }])
        (BsonId.oid freshOid) with _ | d <;> simp [hfd]
  · intro body' e' hp' hfe
    unfold create_empenho
    rw [hp, hp']
    show (let st' := st ++ [{ _id := BsonId.oid freshOid, fields := e'.fields }]
          match findDoc st' (BsonId.oid freshOid) with
          | some d => (st', ApiResponse.record 201 (docToModel d))
          | none => (st', ApiResponse.serverError))
        = (let st' := st ++ [{ _id := BsonId.oid freshOid, fields := e.fields }]
          match findDoc st' (BsonId.oid freshOid) with
          | some d => (st', ApiResponse.record 201 (docToModel d))
          | none => (st', ApiResponse.serverError))
    rw [hfe]
  · intro id u
    by_cases hu : u.isEmpty = true
    · rcases hfd : findDoc st (BsonId.str id) with _ | d <;>
        simp [update_empenho, hu, hfd]
    · rcases hpo : parseObjectId id with _ | h
      · simp [update_empenho, hu, hpo]
      · rcases hr : (findOneAndUpdateAfter st (BsonId.oid h) (applyDoc u)).2 with _ | d
        · simp [update_empenho, hu, hpo, hr]
        · have hids := findOneAndUpdateAfter_fst_ids (BsonId.oid h) (applyDoc u)
            (fun _ => rfl) st
          simp [update_empenho, hu, hpo, hr, hids]

/-- Claim C9 witness: creating `sampleBody` stores the document under the
fresh ObjectId `oid0`; an update of `doc0` changes no stored `_id`; and
`doc0` is emitted with its `_id` as the plain string `oid0`. -/
theorem c9_identifier_immutable_store_assigned_witness :
    (create_empenho [] oid0 sampleBody).1
      = [{ _id := BsonId.oid oid0, fields := sampleFields }] ∧
    ((update_empenho [doc0] oid0 upd1).1).map StoredDoc._id
      = ([doc0] : Store).map StoredDoc._id ∧
    (docToModel doc0).id = some oid0 := by
  have h := c9_identifier_immutable_store_assigned [] oid0 sampleBody sampleModel rfl
  have h2 := c9_identifier_immutable_store_assigned [doc0] oid0 sampleBody sampleModel rfl
  exact ⟨h.1, h2.2.2.1 oid0 upd1, h.2.2.2 doc0⟩
